import Mathlib

/-!
Verification development for the BlueZ monitor AVDTP signaling decoder
(monitor/avdtp.c). The decoder is embedded shallowly: captured frames are
lists of byte values (Nat, each below 256 at the call sites that matter),
and every print call of the C code becomes one structured record in an
output list, in emission order. The reassembly component described by the
design document is absent from the source (the source falls back to a raw
hexdump on fragmented packets), so it is modelled from the design text and
clearly marked as such.
-/

set_option maxRecDepth 4096

/-- One output record, corresponding to one print call of the decoder.
The first group of constructors mirrors the print calls present in the
source; the last two are used only by the design-modelled reassembly
pipeline. -/
inductive Record where
  | summary (sigId : Nat) (sigName : String) (msgType : Nat) (msgName : String)
      (pktType : Nat) (label : Nat) (nosp : Nat)
  | acpSeid (seid : Nat)
  | mediaType (name : String) (code : Nat)
  | sepType (name : String) (code : Nat)
  | inUse (val : String)
  | errorCode (name : String) (code : Nat)
  | hexdump (bytes : List Nat)
  | malformedText
  | pduSummary (sigName : String) (sigId : Nat) (msgName : String) (label : Nat)
  | seedEntry (seid : Nat) (used : Bool) (media : String) (sink : Bool)
  deriving DecidableEq

/-- Embeds msgtype2str: message-type code to display string. -/
def msgtype2str (msgtype : Nat) : String :=
  match msgtype with
  | 0 => "Command"
  | 1 => "General Reject"
  | 2 => "Response Accept"
  | 3 => "Response Reject"
  | _ => ""

/-- Embeds sigid2str: signal-identifier code to display string. -/
def sigid2str (sigid : Nat) : String :=
  match sigid with
  | 0x01 => "Discover"
  | 0x02 => "Get Capabilities"
  | 0x03 => "Set Configuration"
  | 0x04 => "Get Configuration"
  | 0x05 => "Reconfigure"
  | 0x06 => "Open"
  | 0x07 => "Start"
  | 0x08 => "Close"
  | 0x09 => "Suspend"
  | 0x0a => "Abort"
  | 0x0b => "Security Control"
  | 0x0c => "Get All Capabilities"
  | 0x0d => "Delay Report"
  | _ => "Reserved"

/-- Embeds error2str: AVDTP error code byte to display string. -/
def error2str (error : Nat) : String :=
  match error with
  | 0x01 => "BAD_HEADER_FORMAT"
  | 0x11 => "BAD_LENGTH"
  | 0x12 => "BAD_ACP_SEID"
  | 0x13 => "SEP_IN_USE"
  | 0x14 => "SEP_NOT_IN_USER"
  | 0x17 => "BAD_SERV_CATEGORY"
  | 0x18 => "BAD_PAYLOAD_FORMAT"
  | 0x19 => "NOT_SUPPORTED_COMMAND"
  | 0x1a => "INVALID_CAPABILITIES"
  | 0x22 => "BAD_RECOVERY_TYPE"
  | 0x23 => "BAD_MEDIA_TRANSPORT_FORMAT"
  | 0x25 => "BAD_RECOVERY_FORMAT"
  | 0x26 => "BAD_ROHC_FORMAT"
  | 0x27 => "BAD_CP_FORMAT"
  | 0x28 => "BAD_MULTIPLEXING_FORMAT"
  | 0x29 => "UNSUPPORTED_CONFIGURATION"
  | 0x31 => "BAD_STATE"
  | _ => "Unknown"

/-- Embeds mediatype2str: media-type code to display string. -/
def mediatype2str (media_type : Nat) : String :=
  match media_type with
  | 0x00 => "Audio"
  | 0x01 => "Video"
  | 0x02 => "Multimedia"
  | _ => "Reserved"

/-- Embeds avdtp_reject_common: read one error byte from the cursor and
print its symbolic name; return false when the cursor is exhausted. -/
def avdtp_reject_common (payload : List Nat) : Bool × List Record :=
  match payload with
  | [] => (false, [])
  | error :: _ => (true, [Record.errorCode (error2str error) error])

/-- Embeds the while loop of avdtp_discover for the Response Accept case:
read a SEID byte (printing the ACP SEID at once), then an info byte
(printing media type, SEP type and in-use); stop successfully when the
cursor is exhausted, and fail right after the SEID print when the info
byte is missing. -/
def avdtp_discover_seps (payload : List Nat) : Bool × List Record :=
  match payload with
  | [] => (true, [])
  | [seid] => (false, [Record.acpSeid (seid >>> 2)])
  | seid :: info :: rest =>
    let here := [Record.acpSeid (seid >>> 2),
      Record.mediaType (mediatype2str (info >>> 4)) (info >>> 4),
      Record.sepType (if info &&& 0x04 ≠ 0 then "SNK" else "SRC") ((info >>> 3) &&& 0x01),
      Record.inUse (if seid &&& 0x02 ≠ 0 then "Yes" else "No")]
    let r := avdtp_discover_seps rest
    (r.1, here ++ r.2)

/-- Embeds avdtp_discover: branch on the 2-bit message type taken from the
stored header byte; Command decodes nothing, Response Accept runs the
SEID-entry loop, Response Reject reads one error byte, and the remaining
message type falls through to failure. -/
def avdtp_discover (hdr : Nat) (payload : List Nat) : Bool × List Record :=
  match hdr &&& 0x03 with
  | 0 => (true, [])
  | 2 => avdtp_discover_seps payload
  | 3 => avdtp_reject_common payload
  | _ => (false, [])

/-- Packet-fragmentation kinds distinguished by the decoder. -/
inductive FragKind where
  | single
  | start
  | cont
  | ends
  deriving DecidableEq

/-- Embeds the header tests of avdtp_signalling_packet: the source compares
hdr AND 0x0c against 0x04 (Start), 0x08 (Continue) and 0x0c (End), and
treats every other header as a Single packet. -/
def fragKindOf (hdr : Nat) : FragKind :=
  if hdr &&& 0x0c = 0x04 then FragKind.start
  else if hdr &&& 0x0c = 0x08 then FragKind.cont
  else if hdr &&& 0x0c = 0x0c then FragKind.ends
  else FragKind.single

/-- The one-line summary printed by avdtp_signalling_packet: signal name
and id, message-type name and code, packet-type bits, transaction label
and NOSP. -/
def mkSummary (hdr sig_id nosp : Nat) : Record :=
  Record.summary sig_id (sigid2str sig_id) (hdr &&& 0x03) (msgtype2str (hdr &&& 0x03))
    (hdr &&& 0x0c) (hdr >>> 4) nosp

/-- Embeds avdtp_signalling_packet: read the header byte; hexdump Continue
and End packets at once; for a Start packet read NOSP; read and mask the
signal id; print the summary; hexdump the rest of a Start packet; return
right after the summary when the message-type bits are 0x03; dispatch
Discover to its decoder and hexdump every other signal id. -/
def avdtp_signalling_packet (bytes : List Nat) : Bool × List Record :=
  match bytes with
  | [] => (false, [])
  | hdr :: rest =>
    match fragKindOf hdr with
    | FragKind.cont => (true, [Record.hexdump rest])
    | FragKind.ends => (true, [Record.hexdump rest])
    | FragKind.start =>
      match rest with
      | [] => (false, [])
      | nosp :: rest2 =>
        match rest2 with
        | [] => (false, [])
        | sb :: rest3 =>
          (true, [mkSummary hdr (sb &&& 0x3f) nosp, Record.hexdump rest3])
    | FragKind.single =>
      match rest with
      | [] => (false, [])
      | sb :: rest3 =>
        let sig_id := sb &&& 0x3f
        let summary := mkSummary hdr sig_id 0
        if hdr &&& 0x03 = 0x03 then (true, [summary])
        else if sig_id = 1 then
          let r := avdtp_discover hdr rest3
          (r.1, summary :: r.2)
        else (true, [summary, Record.hexdump rest3])

/-- Embeds avdtp_packet: only frames with sequence number 1 reach the
signaling decoder; every other frame is hexdumped whole. A failed decode
appends the malformed marker and a hexdump of the whole frame. -/
def avdtp_packet (seq_num : Nat) (bytes : List Nat) : List Record :=
  if seq_num = 1 then
    let r := avdtp_signalling_packet bytes
    if r.1 then r.2 else r.2 ++ [Record.malformedText, Record.hexdump bytes]
  else [Record.hexdump bytes]

/-- Modelled from the spec: the ReassemblyBuffer map of section 4.2 is
missing from the source (the source hexdumps fragmented packets instead);
it is keyed by ReassemblyKey, abstracted here to a Nat, and holds the
concatenated payload bytes together with the NOSP of the Start fragment. -/
def ReassemblyMap : Type := List (Nat × (List Nat × Nat))

/-- Modelled from the spec: look up the buffer stored under a key. -/
def mapFind (key : Nat) : ReassemblyMap → Option (List Nat × Nat)
  | ([] : List (Nat × (List Nat × Nat))) => none
  | (k, v) :: r => if k = key then some v else mapFind key r

/-- Modelled from the spec: drop any buffer stored under a key. -/
def mapErase (key : Nat) : ReassemblyMap → ReassemblyMap
  | ([] : List (Nat × (List Nat × Nat))) => []
  | (k, v) :: r => if k = key then mapErase key r else (k, v) :: mapErase key r

/-- Modelled from the spec: store a buffer under a key, evicting any buffer
the key already held (section 4.2 evicts on reassembly-key reuse). -/
def mapInsert (key : Nat) (v : List Nat × Nat) (m : ReassemblyMap) : ReassemblyMap :=
  (key, v) :: mapErase key m

/-- Modelled from the spec: outcome of feeding one fragment to the
Reassembler of section 4.2. -/
inductive ReasmResult where
  | dispatch (sigId : Nat) (payload : List Nat)
  | awaiting
  | unexpectedCont
  | truncated
  deriving DecidableEq

/-- Modelled from the spec: a complete PDU hands the Dispatcher the 6-bit
signal id read from its first byte (top 2 bits masked off, section 4.1)
followed by the remaining payload; an empty PDU is truncated. -/
def toDispatch (bytes : List Nat) : ReasmResult :=
  match bytes with
  | [] => ReasmResult.truncated
  | sb :: rest => ReasmResult.dispatch (sb &&& 0x3f) rest

/-- Modelled from the spec: one step of the Reassembler of section 4.2.
Single bypasses reassembly; Start creates the buffer and awaits; Continue
appends to the buffer, failing when no buffer exists; End removes the
buffer, appends its own payload and dispatches the concatenation. -/
def reassembleStep (m : ReassemblyMap) (key : Nat) (kind : FragKind) (nosp : Nat)
    (payload : List Nat) : ReasmResult × ReassemblyMap :=
  match kind with
  | FragKind.single => (toDispatch payload, m)
  | FragKind.start => (ReasmResult.awaiting, mapInsert key (payload, nosp) m)
  | FragKind.cont =>
    match mapFind key m with
    | none => (ReasmResult.unexpectedCont, m)
    | some (buf, n) => (ReasmResult.awaiting, mapInsert key (buf ++ payload, n) m)
  | FragKind.ends =>
    match mapFind key m with
    | none => (ReasmResult.unexpectedCont, m)
    | some (buf, _) => (toDispatch (buf ++ payload), mapErase key m)

/-- Modelled from the spec: the Discover decoder of section 4.4 as seen
from the Dispatcher. The Command form carries no fields; the Response
Accept form reads 2-byte SeedEntry pairs until the payload is exhausted,
an odd trailing byte being malformed; any other message type reaching the
decoder fails. -/
def specSeedEntries (payload : List Nat) : Bool × List Record :=
  match payload with
  | [] => (true, [])
  | [_] => (false, [])
  | seid :: info :: rest =>
    let e := Record.seedEntry (seid >>> 2) (seid &&& 0x02 != 0)
      (mediatype2str (info >>> 4)) (info &&& 0x04 != 0)
    let r := specSeedEntries rest
    (r.1, e :: r.2)

/-- Modelled from the spec: dispatch on message type inside the Discover
decoder of section 4.4 (General and Response Reject were already handled
by the Dispatcher of section 4.3 before per-signal decoding). -/
def specDiscoverDecode (msgType : Nat) (payload : List Nat) : Bool × List Record :=
  match msgType with
  | 0 => (true, [])
  | 2 => specSeedEntries payload
  | _ => (false, [])

/-- Modelled from the spec: the Signal Dispatcher of section 4.3 running on
a reassembled PDU. Every path first emits the one-line summary; General
Reject stops there; Response Reject decodes exactly one error-code byte
and fails when it is absent; otherwise the Discover decoder is invoked for
signal id 1 and every other signal id falls back to a byte dump. -/
def dispatchPDU (msgType label sigId : Nat) (payload : List Nat) : Bool × List Record :=
  let summary := Record.pduSummary (sigid2str sigId) sigId (msgtype2str msgType) label
  if msgType = 1 then (true, [summary])
  else if msgType = 3 then
    match payload with
    | [] => (false, [summary])
    | e :: _ => (true, [summary, Record.errorCode (error2str e) e])
  else if sigId = 1 then
    let r := specDiscoverDecode msgType payload
    (r.1, summary :: r.2)
  else (true, [summary, Record.hexdump payload])

/-- Modelled from the spec: result of decoding one classified fragment
through the Reassembler and, when a full PDU is available, the Dispatcher. -/
inductive DecodeResult where
  | output (ok : Bool) (records : List Record)
  | awaiting
  | errorUnexpectedContinuation
  | errorTruncated
  deriving DecidableEq

/-- Modelled from the spec: the pipeline of sections 4.2 and 4.3 — feed one
fragment to the Reassembler and run the Dispatcher on a dispatched PDU. -/
def decodeFragment (m : ReassemblyMap) (msgType label key nosp : Nat) (kind : FragKind)
    (payload : List Nat) : DecodeResult × ReassemblyMap :=
  match reassembleStep m key kind nosp payload with
  | (ReasmResult.dispatch sigId pl, m2) =>
    let r := dispatchPDU msgType label sigId pl
    (DecodeResult.output r.1 r.2, m2)
  | (ReasmResult.awaiting, m2) => (DecodeResult.awaiting, m2)
  | (ReasmResult.unexpectedCont, m2) => (DecodeResult.errorUnexpectedContinuation, m2)
  | (ReasmResult.truncated, m2) => (DecodeResult.errorTruncated, m2)

/-- Follows the claim wording for the header classifier: the top 2 bits of
the header byte select the packet-fragmentation kind (00 Single, 01 Start,
10 Continue, 11 End). Kept separate from fragKindOf, which embeds the
source, so the two can be compared. -/
def claimedFragKindTop2 (hdr : Nat) : FragKind :=
  match (hdr >>> 6) &&& 0x03 with
  | 0 => FragKind.single
  | 1 => FragKind.start
  | 2 => FragKind.cont
  | _ => FragKind.ends

/-- Follows the amended wording: bits 3 and 2 of the header byte select the
packet-fragmentation kind (00 Single, 01 Start, 10 Continue, 11 End). -/
def bits32FragKind (hdr : Nat) : FragKind :=
  match (hdr >>> 2) &&& 0x03 with
  | 0 => FragKind.single
  | 1 => FragKind.start
  | 2 => FragKind.cont
  | _ => FragKind.ends

/-- C4 counterexample: on header byte 0x40 the top-2-bits reading calls the
packet a Start fragment, while the decoder classifies it as Single and
decodes it fully as a Single Command (reading the next byte as signal id,
not as NOSP). -/
theorem frag_kind_top_bits_cex :
    claimedFragKindTop2 0x40 = FragKind.start ∧ fragKindOf 0x40 = FragKind.single ∧
    avdtp_signalling_packet [0x40, 0x01] =
      (true, [Record.summary 1 "Discover" 0 "Command" 0 4 0]) := by
  decide

/-- C4 (amended): for every header byte, the packet-fragmentation kind the
decoder assigns is the one selected by bits 3 and 2 of the byte (the value
of hdr AND 0x0c shifted down), 00 Single, 01 Start, 10 Continue, 11 End. -/
theorem frag_kind_bits32 : ∀ hdr : Nat, hdr < 256 → fragKindOf hdr = bits32FragKind hdr := by
  decide

/-- C4 witness: the amended classifier at the concrete header byte 0x48. -/
theorem frag_kind_bits32_witness : fragKindOf 0x48 = bits32FragKind 0x48 :=
  frag_kind_bits32 0x48 (by decide)

/-- C5: decoding a Discover Response Accept whose payload is the four bytes
0x04, 0x08, 0x08, 0x08 succeeds and emits exactly two entry groups: ACP
SEID 1 and ACP SEID 2, each with media type Audio, SEP type SRC and in-use
No. -/
theorem discover_accept_two_entries :
    avdtp_discover 0x02 [0x04, 0x08, 0x08, 0x08] =
      (true, [Record.acpSeid 1, Record.mediaType "Audio" 0,
              Record.sepType "SRC" 1, Record.inUse "No",
              Record.acpSeid 2, Record.mediaType "Audio" 0,
              Record.sepType "SRC" 1, Record.inUse "No"]) := by
  decide

/-- C3 evaluation: on the Single Response Reject Discover frame 0x03 0x01
0x12 the decoder stops right after the summary line, never reading the
error byte 0x12, and equally reports plain success when the error byte is
absent; yet the reject decoder present in the source would map that byte
to BAD_ACP_SEID had it been reached. -/
theorem response_reject_summary_only_eval :
    avdtp_signalling_packet [0x03, 0x01, 0x12] =
        (true, [Record.summary 1 "Discover" 3 "Response Reject" 0 0 0])
      ∧ avdtp_signalling_packet [0x03, 0x01] =
        (true, [Record.summary 1 "Discover" 3 "Response Reject" 0 0 0])
      ∧ avdtp_reject_common [0x12] = (true, [Record.errorCode "BAD_ACP_SEID" 0x12]) := by
  decide

/-- C8: a Single packet whose header byte is 0x03 (message-type bits 11)
yields only the one-line summary, whatever the signal id byte and the
remaining payload are; no field decoding of the payload is attempted. -/
theorem general_reject_summary_only (sig : Nat) (payload : List Nat) :
    avdtp_signalling_packet (0x03 :: sig :: payload) =
      (true, [Record.summary (sig &&& 0x3f) (sigid2str (sig &&& 0x3f))
        3 "Response Reject" 0 0 0]) := by
  rfl

/-- C6 counterexample: a Discover Response Accept payload consisting of the
single byte 0x04 (no complete entry at all) still emits the ACP SEID
record of the incomplete trailing entry before the failure, so the record
list is not empty. -/
theorem discover_odd_partial_cex :
    avdtp_discover 2 [0x04] = (false, [Record.acpSeid 1])
      ∧ (avdtp_discover 2 [0x04]).2 ≠ [] := by
  decide

/-- Byte image of a list of complete 2-byte Discover entries. -/
def entryBytes : List (Nat × Nat) → List Nat
  | [] => []
  | (s, i) :: r => s :: i :: entryBytes r

/-- Record image of a list of complete 2-byte Discover entries, mirroring
the prints of the Response Accept loop. -/
def entryRecords : List (Nat × Nat) → List Record
  | [] => []
  | (s, i) :: r =>
    Record.acpSeid (s >>> 2) ::
    Record.mediaType (mediatype2str (i >>> 4)) (i >>> 4) ::
    Record.sepType (if i &&& 0x04 ≠ 0 then "SNK" else "SRC") ((i >>> 3) &&& 0x01) ::
    Record.inUse (if s &&& 0x02 ≠ 0 then "Yes" else "No") :: entryRecords r

/-- The Response Accept loop on complete entries followed by one odd byte:
all complete entries are emitted, then the ACP SEID of the odd byte, then
failure. -/
lemma discover_seps_odd (es : List (Nat × Nat)) (b : Nat) :
    avdtp_discover_seps (entryBytes es ++ [b]) =
      (false, entryRecords es ++ [Record.acpSeid (b >>> 2)]) := by
  induction es with
  | nil => rfl
  | cons p r ih =>
    obtain ⟨s, i⟩ := p
    simp [entryBytes, entryRecords, avdtp_discover_seps, ih]

/-- C6 (amended): decoding a Discover Response Accept payload of odd byte
length fails (reported as malformed by the caller); the complete leading
2-byte entries are fully emitted, and the ACP SEID field of the incomplete
trailing entry is also emitted before the failure. -/
theorem discover_odd_malformed (hdr : Nat) (h : hdr &&& 0x03 = 2)
    (es : List (Nat × Nat)) (b : Nat) :
    avdtp_discover hdr (entryBytes es ++ [b]) =
      (false, entryRecords es ++ [Record.acpSeid (b >>> 2)]) := by
  have hs := discover_seps_odd es b
  unfold avdtp_discover
  split <;> simp_all

/-- C6 witness: one complete entry followed by the odd byte 0x04. -/
theorem discover_odd_malformed_witness :
    avdtp_discover 2 (entryBytes [(4, 8)] ++ [4]) =
      (false, entryRecords [(4, 8)] ++ [Record.acpSeid (4 >>> 2)]) :=
  discover_odd_malformed 2 (by decide) [(4, 8)] 4

/-- The fixed table of named AVDTP error codes present in the source. -/
def namedErrorCodes : List (Nat × String) :=
  [(0x01, "BAD_HEADER_FORMAT"), (0x11, "BAD_LENGTH"), (0x12, "BAD_ACP_SEID"),
   (0x13, "SEP_IN_USE"), (0x14, "SEP_NOT_IN_USER"), (0x17, "BAD_SERV_CATEGORY"),
   (0x18, "BAD_PAYLOAD_FORMAT"), (0x19, "NOT_SUPPORTED_COMMAND"),
   (0x1a, "INVALID_CAPABILITIES"), (0x22, "BAD_RECOVERY_TYPE"),
   (0x23, "BAD_MEDIA_TRANSPORT_FORMAT"), (0x25, "BAD_RECOVERY_FORMAT"),
   (0x26, "BAD_ROHC_FORMAT"), (0x27, "BAD_CP_FORMAT"),
   (0x28, "BAD_MULTIPLEXING_FORMAT"), (0x29, "UNSUPPORTED_CONFIGURATION"),
   (0x31, "BAD_STATE")]

/-- C7 counterexample: exactly 17 byte values map to a name other than
Unknown, so no set of 18 named error-code values exists. -/
theorem error2str_named_count_cex :
    ((List.range 256).filter (fun b => error2str b != "Unknown")).length = 17 := by
  decide

/-- Every byte below 256 either maps to its entry in the named table or is
outside the table and maps to Unknown. -/
lemma error2str_table_aux : ∀ b : Nat, b < 256 →
    ((b, error2str b) ∈ namedErrorCodes ∨
      (b ∉ namedErrorCodes.map Prod.fst ∧ error2str b = "Unknown")) := by
  decide

/-- C7 (amended): the error-code decoder is a total function on bytes: each
of the 17 named AVDTP error-code values maps to its specific name and
every other byte value maps to Unknown; it never fails for any input
byte. -/
theorem error2str_total_table (b : Nat) (hb : b < 256) :
    ((b, error2str b) ∈ namedErrorCodes ∨
      (b ∉ namedErrorCodes.map Prod.fst ∧ error2str b = "Unknown"))
    ∧ namedErrorCodes.length = 17 :=
  ⟨error2str_table_aux b hb, rfl⟩

/-- C7 witness: the amended statement at the concrete byte 0x31. -/
theorem error2str_total_table_witness :
    (((0x31 : Nat), error2str 0x31) ∈ namedErrorCodes ∨
      ((0x31 : Nat) ∉ namedErrorCodes.map Prod.fst ∧ error2str 0x31 = "Unknown"))
    ∧ namedErrorCodes.length = 17 :=
  error2str_total_table 0x31 (by decide)

/-- On bytes whose bits 2 and 3 differ, the SEP-type name chosen from bit 2
never agrees with the numeric value printed beside it, which is bit 3. -/
lemma sep_bits_aux : ∀ info : Nat, info < 256 →
    (info >>> 2) &&& 0x01 ≠ (info >>> 3) &&& 0x01 →
    ¬((if info &&& 0x04 ≠ 0 then "SNK" else "SRC") = "SNK" ↔
      (info >>> 3) &&& 0x01 = 1) := by
  decide

/-- C9: in a Discover Response Accept entry the SEP-type name comes from
bit 2 of the info byte (set means SNK, clear means SRC) while the numeric
value printed beside it comes from bit 3; whenever those two bits differ,
the emitted name and the printed value disagree (the SNK name no longer
coincides with value 1). -/
theorem sep_type_bit_mismatch (seid info : Nat) (hinfo : info < 256)
    (h : (info >>> 2) &&& 0x01 ≠ (info >>> 3) &&& 0x01) :
    (avdtp_discover 2 [seid, info]).2 =
      [Record.acpSeid (seid >>> 2),
       Record.mediaType (mediatype2str (info >>> 4)) (info >>> 4),
       Record.sepType (if info &&& 0x04 ≠ 0 then "SNK" else "SRC") ((info >>> 3) &&& 0x01),
       Record.inUse (if seid &&& 0x02 ≠ 0 then "Yes" else "No")]
    ∧ ¬((if info &&& 0x04 ≠ 0 then "SNK" else "SRC") = "SNK" ↔
      (info >>> 3) &&& 0x01 = 1) :=
  ⟨rfl, sep_bits_aux info hinfo h⟩

/-- C9 witness: the entry 0x04 0x08 — bit 2 of the info byte is clear and
bit 3 is set, so the name SRC is printed beside the value 1. -/
theorem sep_type_bit_mismatch_witness :
    (avdtp_discover 2 [4, 8]).2 =
      [Record.acpSeid (4 >>> 2),
       Record.mediaType (mediatype2str (8 >>> 4)) (8 >>> 4),
       Record.sepType (if (8 : Nat) &&& 0x04 ≠ 0 then "SNK" else "SRC")
         (((8 : Nat) >>> 3) &&& 0x01),
       Record.inUse (if (4 : Nat) &&& 0x02 ≠ 0 then "Yes" else "No")]
    ∧ ¬((if (8 : Nat) &&& 0x04 ≠ 0 then "SNK" else "SRC") = "SNK" ↔
      ((8 : Nat) >>> 3) &&& 0x01 = 1) :=
  sep_type_bit_mismatch 4 8 (by decide) (by decide)

/-- C10: a frame whose sequence number is not 1 never reaches the signaling
decoder: its whole byte list is hexdumped and nothing else is emitted — no
header field is read and no malformed marker is reported. -/
theorem avdtp_packet_seq_filter (seq : Nat) (bytes : List Nat) (h : seq ≠ 1) :
    avdtp_packet seq bytes = [Record.hexdump bytes] := by
  simp [avdtp_packet, h]

/-- C10 witness: sequence number 2 on a concrete frame. -/
theorem avdtp_packet_seq_filter_witness :
    avdtp_packet 2 [1, 2, 3] = [Record.hexdump [1, 2, 3]] :=
  avdtp_packet_seq_filter 2 [1, 2, 3] (by decide)

/-- C1: feeding a Start fragment with payload p1 and then an End fragment
with payload p2 for the same key produces, at the End fragment, exactly
the decode result of a Single fragment carrying p1 ++ p2 on the original
map: the same dispatched signal id, the same summary record and the same
per-signal field records. Reassembly is transparent to the Dispatcher. -/
theorem reassembly_transparent (m : ReassemblyMap) (msgType label key nosp : Nat)
    (p1 p2 : List Nat) :
    (decodeFragment (decodeFragment m msgType label key nosp FragKind.start p1).2
        msgType label key 0 FragKind.ends p2).1
      = (decodeFragment m msgType label key 0 FragKind.single (p1 ++ p2)).1 := by
  simp only [decodeFragment, reassembleStep, mapInsert, mapFind, if_pos rfl]
  cases h : toDispatch (p1 ++ p2) <;> simp [h]

/-- C2: a Continue fragment arriving while its key holds no open buffer
fails with the unexpected-continuation error and leaves the reassembly map
unchanged, so no buffer is created. -/
theorem continue_without_start (m : ReassemblyMap) (msgType label key nosp : Nat)
    (p : List Nat) (h : mapFind key m = none) :
    decodeFragment m msgType label key nosp FragKind.cont p =
      (DecodeResult.errorUnexpectedContinuation, m) := by
  simp [decodeFragment, reassembleStep, h]

/-- C2 witness: a Continue fragment on the empty reassembly map. -/
theorem continue_without_start_witness :
    mapFind 0 ([] : ReassemblyMap) = none ∧
    decodeFragment ([] : ReassemblyMap) 0 0 0 0 FragKind.cont [5] =
      (DecodeResult.errorUnexpectedContinuation, ([] : ReassemblyMap)) :=
  ⟨rfl, continue_without_start ([] : ReassemblyMap) 0 0 0 0 [5] rfl⟩
